import Mathlib

/-!
A shallow embedding of the pubsub peer-discovery engine
(`src/index.ts`, class `PubSubPeerDiscovery`).

Bytes are modelled as `List Nat`; peer identifiers as `Nat`; time values
(milliseconds) and the random draw of `Math.random()` as `ℚ`.  Calls the
engine makes on the pubsub transport are recorded as a trace of `Op`
values; a thrown JavaScript exception is modelled as an `Option`/`Except`
error value.  The identity collaborator `peerIdFromKeys` is external to
the repository and is passed in as a resolver function parameter.
-/

namespace PubsubPD

/-- The protobuf `Peer` message of the announcement codec:
a public key and a list of serialized addresses. -/
structure PBPeerMsg where
  publicKey : List Nat
  addrs : List (List Nat)
deriving DecidableEq

/-- Decode failures of the announcement codec. -/
inductive DecodeError where
  | truncatedVarint
  | truncatedField
  | unknownField
  | missingPublicKey
  | emptyPublicKey
deriving DecidableEq

/-- Emit base-128 digits of `n`, low digit first, high bit marking
continuation.  Structural recursion on `fuel`; since `n / 128 < n` for
`n ≥ 128`, any `fuel ≥ n` steps suffice and the `fuel = 0` case is
unreachable from `encodeVarint`. -/
def encodeVarintAux (fuel n : Nat) : List Nat :=
  match fuel with
  | 0 => [n % 128]
  | fuel + 1 => if n < 128 then [n] else (n % 128 + 128) :: encodeVarintAux fuel (n / 128)

/-- Protobuf varint encoding of a natural number (7 bits per byte,
little-endian, high bit marks continuation). -/
def encodeVarint (n : Nat) : List Nat :=
  encodeVarintAux n n

/-- Parse a varint from the front of a byte list; `none` on truncation. -/
def decodeVarint : List Nat → Option (Nat × List Nat)
  | [] => none
  | b :: rest =>
    if b < 128 then some (b, rest)
    else
      match decodeVarint rest with
      | none => none
      | some (v, rest2) => some (b % 128 + v * 128, rest2)

/-- Take exactly `n` bytes from the front of a byte list; `none` if fewer. -/
def readBytes (n : Nat) (bs : List Nat) : Option (List Nat × List Nat) :=
  if n ≤ bs.length then some (bs.take n, bs.drop n) else none

/-- Modelled from the spec: the announcement codec's `encode`
(`Peer.encode` of `peer.js`, generated protobuf code that is not part of
`src/`).  Fixed schema: field 1 (`publicKey`, length-delimited, tag byte
10) followed by one field 2 entry per address (length-delimited, tag
byte 18). -/
def pbEncode (p : PBPeerMsg) : List Nat :=
  (10 :: (encodeVarint p.publicKey.length ++ p.publicKey))
    ++ p.addrs.flatMap (fun a => 18 :: (encodeVarint a.length ++ a))

/-- Field-parsing loop of the decoder.  Each step consumes at least the
tag byte, so fuel equal to the input length suffices. -/
def decodePeerLoop : Nat → List Nat → Option (List Nat) → List (List Nat) →
    Except DecodeError PBPeerMsg
  | _, [], pk?, addrs =>
    match pk? with
    | some [] => .error .emptyPublicKey
    | some pk => .ok ⟨pk, addrs⟩
    | none => .error .missingPublicKey
  | 0, _ :: _, _, _ => .error .truncatedField
  | fuel + 1, tag :: rest, pk?, addrs =>
    if tag = 10 then
      match decodeVarint rest with
      | none => .error .truncatedVarint
      | some (len, rest2) =>
        match readBytes len rest2 with
        | none => .error .truncatedField
        | some (fld, rest3) => decodePeerLoop fuel rest3 (some fld) addrs
    else if tag = 18 then
      match decodeVarint rest with
      | none => .error .truncatedVarint
      | some (len, rest2) =>
        match readBytes len rest2 with
        | none => .error .truncatedField
        | some (fld, rest3) => decodePeerLoop fuel rest3 pk? (addrs ++ [fld])
    else .error .unknownField

/-- Modelled from the spec: the announcement codec's `decode`
(`Peer.decode` of `peer.js`, not part of `src/`).  Fails when the bytes
are not a structurally valid encoding: truncated length-prefixed fields,
a field outside the fixed schema, or a missing/empty required public
key. -/
def pbDecode (bs : List Nat) : Except DecodeError PBPeerMsg :=
  decodePeerLoop bs.length bs none []

/-- The well-known default discovery topic (`TOPIC` in `index.ts`). -/
def TOPIC : String := "_peer-discovery._p2p._pubsub"

/-- `PubsubPeerDiscoveryInit`: the recognized constructor options, each
optional. -/
structure Init where
  interval : Option ℚ := none
  topics : Option (List String) := none
  listenOnly : Option Bool := none
  broadcastOnSubscribe : Option Bool := none
  backoffOnSubscribe : Option ℚ := none
deriving DecidableEq

/-- The configuration fields the constructor stores on the instance. -/
structure Config where
  interval : ℚ
  listenOnly : Bool
  topics : List String
  broadcastOnSubscribe : Bool
  backoffOnSubscribe : ℚ
deriving DecidableEq

/-- The constructor of `PubSubPeerDiscovery` (lines 63–88): defaulting of
options and the topics fallback (`Array.isArray(topics) && topics.length > 0`). -/
def mkConfig (init : Init) : Config :=
  let interval := init.interval.getD 10000
  { interval := interval
    listenOnly := init.listenOnly.getD false
    broadcastOnSubscribe := init.broadcastOnSubscribe.getD false
    backoffOnSubscribe := init.backoffOnSubscribe.getD (interval * (1 / 10))
    topics :=
      match init.topics with
      | some ts => if ts.length > 0 then ts else [TOPIC]
      | none => [TOPIC] }

/-- `PubSubPeerDiscoveryComponents`: this node's canonical identifier,
its optional raw public key (`peerId.publicKey`), whether a pubsub
transport is attached, and the address manager's current addresses
(as raw bytes, `ma.bytes`). -/
structure Components where
  ownPeerId : Nat
  publicKey : Option (List Nat)
  pubsubConfigured : Bool
  addresses : List (List Nat)
deriving DecidableEq

/-- One call the engine makes on the pubsub transport. -/
inductive Op where
  | subscribe (topic : String)
  | unsubscribe (topic : String)
  | addMessageListener
  | removeMessageListener
  | addSubscriptionChangeListener
  | publish (topic : String) (data : List Nat)
deriving DecidableEq

/-- Exceptions the engine itself throws. -/
inductive EngineError where
  | pubsubNotConfigured
  | peerIdMissingPublicKey
deriving DecidableEq

/-- The engine's mutable timer state: `intervalId` (the pending periodic
timer, carrying its period) and the pending opportunistic one-shot
timers (their delays), in scheduling order. -/
structure EngineState where
  intervalId : Option ℚ
  oneShots : List ℚ
deriving DecidableEq

/-- A freshly constructed engine: no timers pending. -/
def initialState : EngineState :=
  { intervalId := none, oneShots := [] }

/-- `isStarted()` (line 98): the engine considers itself started exactly
when the periodic-interval handle is set. -/
def isStarted (st : EngineState) : Bool :=
  st.intervalId.isSome

/-- `_broadcast()` (lines 181–204): check the public key, build the peer
record from the key and the address manager's addresses read at this
call, encode it, and publish the same encoded bytes on every configured
topic.  Returns the transport calls made and the thrown exception, if
any. -/
def broadcast (cfg : Config) (comps : Components) :
    List Op × Option EngineError :=
  match comps.publicKey with
  | none => ([], some .peerIdMissingPublicKey)
  | some pk =>
    let encodedPeer := pbEncode ⟨pk, comps.addresses⟩
    if comps.pubsubConfigured then
      (cfg.topics.map (fun topic => Op.publish topic encodedPeer), none)
    else ([], some .pubsubNotConfigured)

/-- `afterStart()` (lines 110–153): return if already started, throw if
no pubsub, subscribe to every topic (adding the message listener inside
the same loop), return early when listen-only, otherwise register the
subscription-change listener when configured, broadcast once, and set
the periodic timer.  Returns the state after the call, the transport
calls made (in order, including those made before a throw), and the
thrown exception, if any. -/
def afterStart (cfg : Config) (comps : Components) (st : EngineState) :
    EngineState × List Op × Option EngineError :=
  if isStarted st then (st, [], none)
  else if comps.pubsubConfigured then
    let subOps := cfg.topics.flatMap (fun topic => [Op.subscribe topic, Op.addMessageListener])
    if cfg.listenOnly then (st, subOps, none)
    else
      let regOps := if cfg.broadcastOnSubscribe then [Op.addSubscriptionChangeListener] else []
      let bc := broadcast cfg comps
      match bc.2 with
      | some e => (st, subOps ++ regOps ++ bc.1, some e)
      | none =>
        ({ st with intervalId := some cfg.interval }, subOps ++ regOps ++ bc.1, none)
  else (st, [], some .pubsubNotConfigured)

/-- `beforeStop()` (lines 155–166): throw if no pubsub, otherwise
unsubscribe from every topic and remove the message listener, with no
guard on whether the engine was ever started. -/
def beforeStop (cfg : Config) (comps : Components) (st : EngineState) :
    EngineState × List Op × Option EngineError :=
  if comps.pubsubConfigured then
    (st, cfg.topics.flatMap (fun topic => [Op.unsubscribe topic, Op.removeMessageListener]), none)
  else (st, [], some .pubsubNotConfigured)

/-- `stop()` (lines 171–176): clear the periodic timer if one is set.
One-shot timers are not touched; no transport calls are made. -/
def stop (st : EngineState) : EngineState × List Op × Option EngineError :=
  match st.intervalId with
  | some _ => ({ st with intervalId := none }, [], none)
  | none => (st, [], none)

/-- The subscription-change listener registered in `afterStart`
(lines 134–143): if the remote peer's new subscriptions include a
configured topic, schedule one one-shot broadcast after
`backoffOnSubscribe * Math.random()`; `rand` is the value drawn by
`Math.random()`. -/
def onSubscriptionChange (cfg : Config) (subs : List String) (rand : ℚ)
    (st : EngineState) : EngineState :=
  let discoverySubs := subs.filter (fun topic => cfg.topics.contains topic)
  if discoverySubs.length > 0 then
    { st with oneShots := st.oneShots ++ [cfg.backoffOnSubscribe * rand] }
  else st

/-- An inbound pubsub message: topic plus payload bytes. -/
structure Msg where
  topic : String
  data : List Nat
deriving DecidableEq

/-- The `PeerInfo` detail of a dispatched `peer` discovery event. -/
structure PeerInfoEvt where
  id : Nat
  multiaddrs : List (List Nat)
  protocols : List String
deriving DecidableEq

/-- The identity collaborator `peerIdFromKeys`: derives a canonical
identifier from public-key bytes, `none` on a malformed key. -/
def Resolver : Type := List Nat → Option Nat

/-- `_onMessage(event)` (lines 209–240): drop when not started or on an
unconfigured topic; decode the payload — a decode error is NOT caught
and propagates out of the handler (`.error`); resolve the identity (a
resolution failure is caught by the `.catch` and only logged); drop our
own announcement; otherwise dispatch one `peer` event.  `.ok evs` is the
list of discovery events dispatched. -/
def onMessage (cfg : Config) (comps : Components) (resolve : Resolver)
    (st : EngineState) (msg : Msg) : Except DecodeError (List PeerInfoEvt) :=
  if !isStarted st then .ok []
  else if !(cfg.topics.contains msg.topic) then .ok []
  else
    match pbDecode msg.data with
    | .error e => .error e
    | .ok peer =>
      match resolve peer.publicKey with
      | none => .ok []
      | some peerId =>
        if peerId = comps.ownPeerId then .ok []
        else .ok [{ id := peerId, multiaddrs := peer.addrs, protocols := [] }]

/-! Concrete fixtures used by witnesses and counterexamples. -/

/-- A resolver that knows two well-formed keys: `[1]` is this node's own
key, `[2]` is another peer's. -/
def testResolve : Resolver :=
  fun pk =>
    if pk = [1] then some 1
    else if pk = [2] then some 2
    else none

/-- Components of the node under test: identifier 1, public key `[1]`,
pubsub attached, one known address. -/
def comps0 : Components :=
  { ownPeerId := 1, publicKey := some [1], pubsubConfigured := true
    addresses := [[7, 8]] }

/-- The default configuration (`new PubSubPeerDiscovery(components)`). -/
def cfgD : Config := mkConfig {}

/-- A started engine state with the default period. -/
def st1 : EngineState := { intervalId := some 10000, oneShots := [] }

/-- A valid announcement of peer 2 with one address `[5]`. -/
def msg2data : List Nat := pbEncode ⟨[2], [[5]]⟩

/-- A listen-only configuration. -/
def cfgL : Config := mkConfig { listenOnly := some true }

/-- A configuration with opportunistic broadcast enabled and the default
backoff. -/
def cfgB : Config := mkConfig { broadcastOnSubscribe := some true }

/-- A configuration with opportunistic broadcast enabled and a zero
backoff. -/
def cfg0B : Config := mkConfig { broadcastOnSubscribe := some true, backoffOnSubscribe := some 0 }

instance {ε α : Type} [DecidableEq ε] [DecidableEq α] : DecidableEq (Except ε α) := fun x y =>
  match x, y with
  | .ok a, .ok b =>
    if h : a = b then .isTrue (congrArg Except.ok h)
    else .isFalse (fun hc => h (Except.ok.inj hc))
  | .error a, .error b =>
    if h : a = b then .isTrue (congrArg Except.error h)
    else .isFalse (fun hc => h (Except.error.inj hc))
  | .ok _, .error _ => .isFalse (fun hc => Except.noConfusion hc)
  | .error _, .ok _ => .isFalse (fun hc => Except.noConfusion hc)

/-! Helper lemmas about operation counts in `afterStart` traces. -/

/-- The subscribe loop of `afterStart` issues one `subscribe t` per
occurrence of `t` in the topic list. -/
theorem count_subscribe_subOps (ts : List String) (t : String) :
    (ts.flatMap fun s => [Op.subscribe s, Op.addMessageListener]).count (Op.subscribe t)
      = ts.count t := by
  induction ts with
  | nil => rfl
  | cons a ts ih => simp [List.count_cons, ih]

/-- The publish loop of `_broadcast` issues no subscribe calls. -/
theorem count_subscribe_pubOps (ts : List String) (d : List Nat) (t : String) :
    (ts.map fun s => Op.publish s d).count (Op.subscribe t) = 0 := by
  induction ts with
  | nil => rfl
  | cons a ts ih => simp [List.count_cons, ih]

/-! Claims. -/

/-- C1, counterexample to the claim as stated: on a started engine with
the default configuration, a message on the configured topic whose
payload is not a valid Announcement encoding (here: empty bytes, whose
decoding fails for lack of the required public-key field) makes
`_onMessage` propagate the decode error out of the handler, instead of
logging it and returning normally: `PBPeer.decode` on line 220 of
`index.ts` is not wrapped in any try/catch, and the `.catch` on line 237
only covers the identity-resolution promise. -/
theorem C1_decode_error_escapes_counterexample :
    (pbDecode [] = .error .missingPublicKey) ∧
    onMessage cfgD comps0 testResolve st1 { topic := TOPIC, data := [] }
      = .error .missingPublicKey := by decide

/-- C1 (amended): on a started engine, a message on a configured topic
whose payload fails to decode makes the handler propagate the decode
error (it is not caught or logged inside `_onMessage`); the handler
keeps no per-message error state, so a well-formed message delivered to
the same handler still produces exactly one DiscoveryEvent. -/
theorem C1_decode_failure_amended (cfg : Config) (comps : Components) (resolve : Resolver)
    (st : EngineState) (hst : isStarted st = true) :
    (∀ msg : Msg, msg.topic ∈ cfg.topics →
      ∀ e, pbDecode msg.data = .error e →
        onMessage cfg comps resolve st msg = .error e) ∧
    (∀ msg : Msg, msg.topic ∈ cfg.topics →
      ∀ peer pid, pbDecode msg.data = .ok peer →
        resolve peer.publicKey = some pid → pid ≠ comps.ownPeerId →
        onMessage cfg comps resolve st msg
          = .ok [{ id := pid, multiaddrs := peer.addrs, protocols := [] }]) := by
  constructor
  · intro msg ht e he
    simp [onMessage, hst, ht, he]
  · intro msg ht peer pid hd hr hne
    simp [onMessage, hst, ht, hd, hr, hne]

/-- C1 witness: the amended theorem at the default configuration, with a
malformed payload (empty bytes) followed by a valid announcement of
peer 2. -/
theorem C1_decode_failure_amended_witness :
    onMessage cfgD comps0 testResolve st1 { topic := TOPIC, data := [] }
        = .error .missingPublicKey ∧
    onMessage cfgD comps0 testResolve st1 { topic := TOPIC, data := msg2data }
        = .ok [{ id := 2, multiaddrs := [[5]], protocols := [] }] :=
  ⟨(C1_decode_failure_amended cfgD comps0 testResolve st1 (by decide)).1
      { topic := TOPIC, data := [] } (by decide) .missingPublicKey (by decide),
   (C1_decode_failure_amended cfgD comps0 testResolve st1 (by decide)).2
      { topic := TOPIC, data := msg2data } (by decide) ⟨[2], [[5]]⟩ 2 (by decide) (by decide)
      (by decide)⟩

/-- C2, evaluation of the code at the failing input: with
`listenOnly = true`, `afterStart` completes without throwing but never
sets `intervalId` (the listen-only early return on line 129 precedes the
assignment on line 150), so `isStarted()` stays false and the liveness
check on line 210 makes `_onMessage` drop every message: a valid
announcement of another peer on the configured topic yields zero
DiscoveryEvents, though the same message on a state with the periodic
timer set would yield one. -/
theorem C2_listen_only_never_ingests_bug :
    (afterStart cfgL comps0 initialState).2.2 = none ∧
    isStarted (afterStart cfgL comps0 initialState).1 = false ∧
    onMessage cfgL comps0 testResolve (afterStart cfgL comps0 initialState).1
        { topic := TOPIC, data := msg2data } = .ok [] ∧
    onMessage cfgL comps0 testResolve st1 { topic := TOPIC, data := msg2data }
        = .ok [{ id := 2, multiaddrs := [[5]], protocols := [] }] := by decide

/-- C3, counterexample to the claim as stated: in a listen-only
configuration `afterStart` returns before setting `intervalId`, so its
idempotence guard (line 111) never trips; calling it twice subscribes to
the default topic twice, and the second call is not free of transport
operations. -/
theorem C3_double_start_counterexample :
    ((afterStart cfgL comps0 initialState).2.1 ++
        (afterStart cfgL comps0 (afterStart cfgL comps0 initialState).1).2.1).count
      (Op.subscribe TOPIC) = 2 ∧
    (afterStart cfgL comps0 (afterStart cfgL comps0 initialState).1).2.1 ≠ [] := by decide

/-- C3 (amended): when `listenOnly` is false, the transport is attached
and the local peer has a public key, calling `afterStart` twice from a
never-started state makes the second call a transport no-op, and the two
calls together issue exactly one subscribe per configured-topic
occurrence. -/
theorem C3_start_idempotent_amended (cfg : Config) (comps : Components) (st : EngineState)
    (hlo : cfg.listenOnly = false) (hps : comps.pubsubConfigured = true)
    (hpk : comps.publicKey.isSome = true) (hst : st.intervalId = none) :
    (afterStart cfg comps (afterStart cfg comps st).1).2.1 = [] ∧
    ∀ topic, ((afterStart cfg comps st).2.1 ++
        (afterStart cfg comps (afterStart cfg comps st).1).2.1).count (Op.subscribe topic)
      = cfg.topics.count topic := by
  obtain ⟨pk, hpk'⟩ := Option.isSome_iff_exists.mp hpk
  have h1 : afterStart cfg comps st
      = ({ st with intervalId := some cfg.interval },
         (cfg.topics.flatMap fun topic => [Op.subscribe topic, Op.addMessageListener])
           ++ ((if cfg.broadcastOnSubscribe then [Op.addSubscriptionChangeListener] else [])
           ++ cfg.topics.map fun topic => Op.publish topic (pbEncode ⟨pk, comps.addresses⟩)),
         none) := by
    simp [afterStart, isStarted, hst, hps, hlo, broadcast, hpk']
  have h2 : afterStart cfg comps (afterStart cfg comps st).1
      = ((afterStart cfg comps st).1, [], none) := by
    rw [h1]
    simp [afterStart, isStarted]
  refine ⟨by rw [h2], fun topic => ?_⟩
  rw [h2, h1]
  simp only [List.append_nil, List.count_append, count_subscribe_subOps, count_subscribe_pubOps]
  cases cfg.broadcastOnSubscribe <;> simp [List.count_cons]

/-- C3 witness: the amended theorem at the default configuration; the
two successive `afterStart` calls subscribe to the default topic exactly
once. -/
theorem C3_start_idempotent_amended_witness :
    ((afterStart cfgD comps0 initialState).2.1 ++
        (afterStart cfgD comps0 (afterStart cfgD comps0 initialState).1).2.1).count
      (Op.subscribe TOPIC) = 1 :=
  ((C3_start_idempotent_amended cfgD comps0 initialState rfl rfl rfl rfl).2 TOPIC).trans
    (by decide)

/-- C4, counterexample to the claim as stated: on an engine that was
never started, `beforeStop` still issues an unsubscribe and a listener
removal for the configured topic — it has no started-state guard
(lines 155–166). -/
theorem C4_stop_idle_counterexample :
    initialState.intervalId = none ∧
    (beforeStop cfgD comps0 initialState).2.1
        = [Op.unsubscribe TOPIC, Op.removeMessageListener] ∧
    (beforeStop cfgD comps0 initialState).2.1 ≠ [] := by decide

/-- C4 (amended): on a never-started engine with the transport attached,
`beforeStop` issues an unsubscribe and a message-listener removal for
every configured topic while leaving the engine state unchanged, and
`stop` performs no transport calls and leaves the state unchanged. -/
theorem C4_stop_idle_amended (cfg : Config) (comps : Components) (st : EngineState)
    (hst : st.intervalId = none) (hps : comps.pubsubConfigured = true) :
    beforeStop cfg comps st
        = (st, cfg.topics.flatMap fun topic => [Op.unsubscribe topic, Op.removeMessageListener],
           none) ∧
    stop st = (st, [], none) := by
  constructor
  · simp [beforeStop, hps]
  · simp [stop, hst]

/-- C4 witness: the amended theorem at the default configuration and the
fresh engine state. -/
theorem C4_stop_idle_amended_witness :
    beforeStop cfgD comps0 initialState
        = (initialState, [Op.unsubscribe TOPIC, Op.removeMessageListener], none) ∧
    stop initialState = (initialState, [], none) :=
  ⟨(C4_stop_idle_amended cfgD comps0 initialState rfl rfl).1.trans (by decide),
   (C4_stop_idle_amended cfgD comps0 initialState rfl rfl).2⟩

/-- C5 (confirmed): on a started engine, a message on a configured topic
whose decoded public key resolves to this node's own identifier is
discarded silently — no DiscoveryEvent and no exception. -/
theorem C5_self_filter (cfg : Config) (comps : Components) (resolve : Resolver)
    (st : EngineState) (msg : Msg) (peer : PBPeerMsg)
    (hst : isStarted st = true) (ht : msg.topic ∈ cfg.topics)
    (hdec : pbDecode msg.data = .ok peer)
    (hres : resolve peer.publicKey = some comps.ownPeerId) :
    onMessage cfg comps resolve st msg = .ok [] := by
  simp [onMessage, hst, ht, hdec, hres]

/-- C5 witness: the node's own announcement (public key `[1]`) fed back
on the default topic produces zero events. -/
theorem C5_self_filter_witness :
    onMessage cfgD comps0 testResolve st1 { topic := TOPIC, data := pbEncode ⟨[1], [[9]]⟩ }
      = .ok [] :=
  C5_self_filter cfgD comps0 testResolve st1 { topic := TOPIC, data := pbEncode ⟨[1], [[9]]⟩ }
    ⟨[1], [[9]]⟩ (by decide) (by decide) (by decide) (by decide)

/-- C6 (confirmed): a message whose topic is not among the configured
topics produces zero DiscoveryEvents and no exception, whatever its
payload — the topic check precedes the decode. -/
theorem C6_topic_filter (cfg : Config) (comps : Components) (resolve : Resolver)
    (st : EngineState) (msg : Msg)
    (ht : msg.topic ∉ cfg.topics) :
    onMessage cfg comps resolve st msg = .ok [] := by
  by_cases h : isStarted st <;> simp [onMessage, h, ht]

/-- C6 witness: a message on an unconfigured topic with a payload that
is not even a valid encoding still produces zero events and no
exception. -/
theorem C6_topic_filter_witness :
    onMessage cfgD comps0 testResolve st1 { topic := "another-topic", data := [] } = .ok [] :=
  C6_topic_filter cfgD comps0 testResolve st1 { topic := "another-topic", data := [] }
    (by decide)

/-- C7 (confirmed): with the transport attached, `_broadcast` throws
exactly when the local public key is absent; when the key is present it
publishes, on every configured topic, the same encoding of the
announcement built from that key and the addresses read from the
address registry at this call. -/
theorem C7_broadcast_spec (cfg : Config) (comps : Components)
    (hps : comps.pubsubConfigured = true) :
    ((broadcast cfg comps).2.isSome ↔ comps.publicKey = none) ∧
    ∀ pk, comps.publicKey = some pk →
      broadcast cfg comps
        = (cfg.topics.map fun topic => Op.publish topic (pbEncode ⟨pk, comps.addresses⟩),
           none) := by
  constructor
  · cases hc : comps.publicKey <;> simp [broadcast, hc, hps]
  · intro pk hpk
    simp [broadcast, hpk, hps]

/-- C7 witness: the test components broadcast one publish of their
encoded announcement on the default topic, with no exception. -/
theorem C7_broadcast_spec_witness :
    broadcast cfgD comps0 = ([Op.publish TOPIC (pbEncode ⟨[1], [[7, 8]]⟩)], none) :=
  ((C7_broadcast_spec cfgD comps0 rfl).2 [1] rfl).trans (by decide)

/-- C8, counterexample to the claim as stated: `backoffOnSubscribe` may
be configured as 0 (the constructor keeps an explicit 0), in which case
a matching subscription change still schedules one one-shot broadcast,
but its delay 0 does not satisfy `0 ≤ d < backoffOnSubscribe` — that
interval is empty. -/
theorem C8_zero_backoff_counterexample :
    (onSubscriptionChange cfg0B [TOPIC] (1 / 2) st1).oneShots = st1.oneShots ++ [0] ∧
    ¬ (0 ≤ (0 : ℚ) ∧ (0 : ℚ) < cfg0B.backoffOnSubscribe) := by
  have hB : cfg0B.backoffOnSubscribe = 0 := rfl
  have h1 : (onSubscriptionChange cfg0B [TOPIC] (1 / 2) st1).oneShots
      = st1.oneShots ++ [(0 : ℚ) * (1 / 2)] := rfl
  rw [zero_mul] at h1
  refine ⟨h1, ?_⟩
  rw [hB]
  rintro ⟨-, h⟩
  exact lt_irrefl 0 h

/-- C8 (amended): when `backoffOnSubscribe` is positive and a remote
peer's subscription change includes a configured topic, exactly one
one-shot broadcast is scheduled, with a delay in
`[0, backoffOnSubscribe)` for every random draw in `[0, 1)`. -/
theorem C8_backoff_bound_amended (cfg : Config) (subs : List String) (r : ℚ)
    (st : EngineState)
    (hB : 0 < cfg.backoffOnSubscribe) (hr0 : 0 ≤ r) (hr1 : r < 1)
    (hsub : 0 < (subs.filter fun topic => cfg.topics.contains topic).length) :
    ∃ d, onSubscriptionChange cfg subs r st = { st with oneShots := st.oneShots ++ [d] } ∧
      0 ≤ d ∧ d < cfg.backoffOnSubscribe := by
  refine ⟨cfg.backoffOnSubscribe * r, ?_, mul_nonneg hB.le hr0,
    (mul_lt_iff_lt_one_right hB).mpr hr1⟩
  have hrw : onSubscriptionChange cfg subs r st
      = if 0 < (subs.filter fun topic => cfg.topics.contains topic).length
        then { st with oneShots := st.oneShots ++ [cfg.backoffOnSubscribe * r] } else st := rfl
  rw [hrw, if_pos hsub]

/-- C8 witness: the amended theorem with the default backoff (1000 ms)
and the draw 1/2. -/
theorem C8_backoff_bound_amended_witness :
    ∃ d, onSubscriptionChange cfgB [TOPIC] (1 / 2) st1
        = { st1 with oneShots := st1.oneShots ++ [d] } ∧
      0 ≤ d ∧ d < cfgB.backoffOnSubscribe :=
  C8_backoff_bound_amended cfgB [TOPIC] (1 / 2) st1 (by norm_num [cfgB, mkConfig])
    (by norm_num) (by norm_num) (by decide)

/-- C9 (confirmed): after any opportunistic one-shot timer has been
scheduled by the subscription-change listener, `stop` clears the
periodic timer but leaves every pending one-shot timer in place, and
makes no transport calls. -/
theorem C9_stop_spares_oneshot_timers (cfg : Config) (subs : List String) (r : ℚ)
    (st : EngineState) :
    (stop (onSubscriptionChange cfg subs r st)).1.oneShots
        = (onSubscriptionChange cfg subs r st).oneShots ∧
    (stop (onSubscriptionChange cfg subs r st)).1.intervalId = none ∧
    (stop (onSubscriptionChange cfg subs r st)).2.1 = [] := by
  cases hs : (onSubscriptionChange cfg subs r st).intervalId <;> simp [stop, hs]

/-- C10 (confirmed): constructing the engine with an empty topics array
yields the same configuration as omitting topics, and its topic list is
the single well-known default topic. -/
theorem C10_empty_topics_default (i : Option ℚ) (l b : Option Bool) (bo : Option ℚ) :
    mkConfig { interval := i, topics := some [], listenOnly := l,
               broadcastOnSubscribe := b, backoffOnSubscribe := bo }
      = mkConfig { interval := i, topics := none, listenOnly := l,
                   broadcastOnSubscribe := b, backoffOnSubscribe := bo } ∧
    (mkConfig { interval := i, topics := some [], listenOnly := l,
                broadcastOnSubscribe := b, backoffOnSubscribe := bo }).topics = [TOPIC] :=
  ⟨rfl, rfl⟩

end PubsubPD
